import Mathlib

/-
Shallow embedding of the rlox bytecode compiler and virtual machine
(src/chunk.rs, src/value.rs, src/compiler.rs, src/vm.rs).

Conventions.
* Machine integers (u8, u16, usize) are modelled as Nat with an explicit
  mod 2^w wherever the source performs narrowing or wrapping arithmetic.
* Lox numbers are f64 in the source; they are modelled as Int here.  Every
  claim under study exercises only small integer-valued numbers (where f64
  arithmetic and its default rendering agree with Int), or depends only on
  the variant-dispatch structure, never on rounding.
* Fallible operations return Option or an explicit outcome type; a Rust
  panic (todo!, unwrap on None, index out of bounds, debug-mode overflow)
  is an explicit constructor of the outcome type.
* Rust Vec<Value> (the VM value stack) is a List Value, bottom first, with
  the exact operations of the ValueStack trait impl in vm.rs.
* HashMap<String, Value> (globals, instance fields) is an association list
  with insert-or-replace; no claim depends on iteration order.
-/

/-- The opcode set, with the numeric encoding of src/chunk.rs. -/
inductive OpCode where
  | ret
  | constant
  | nilOp
  | trueOp
  | falseOp
  | equal
  | greater
  | less
  | negate
  | add
  | subtract
  | multiply
  | divide
  | notOp
  | printOp
  | popOp
  | defineGlobal
  | getGlobal
  | setGlobal
  | getLocal
  | setLocal
  | jumpIfFalse
  | jump
  | loopOp
  | call
  | closureOp
  | getUpvalue
  | setUpvalue
  | closeUpvalue
  | classOp
  | getProperty
  | setProperty
  deriving DecidableEq, Repr

/-- Numeric encoding of an opcode (the enum discriminants of chunk.rs). -/
def OpCode.toU8 : OpCode → Nat
  | .ret => 0
  | .constant => 1
  | .nilOp => 2
  | .trueOp => 3
  | .falseOp => 4
  | .equal => 5
  | .greater => 6
  | .less => 7
  | .negate => 8
  | .add => 9
  | .subtract => 10
  | .multiply => 11
  | .divide => 12
  | .notOp => 13
  | .printOp => 14
  | .popOp => 15
  | .defineGlobal => 16
  | .getGlobal => 17
  | .setGlobal => 18
  | .getLocal => 19
  | .setLocal => 20
  | .jumpIfFalse => 21
  | .jump => 22
  | .loopOp => 23
  | .call => 24
  | .closureOp => 25
  | .getUpvalue => 26
  | .setUpvalue => 27
  | .closeUpvalue => 28
  | .classOp => 29
  | .getProperty => 30
  | .setProperty => 31

/-- OpCode::from_u8 of chunk.rs. -/
def OpCode.fromU8 : Nat → Option OpCode
  | 0 => some .ret
  | 1 => some .constant
  | 2 => some .nilOp
  | 3 => some .trueOp
  | 4 => some .falseOp
  | 5 => some .equal
  | 6 => some .greater
  | 7 => some .less
  | 8 => some .negate
  | 9 => some .add
  | 10 => some .subtract
  | 11 => some .multiply
  | 12 => some .divide
  | 13 => some .notOp
  | 14 => some .printOp
  | 15 => some .popOp
  | 16 => some .defineGlobal
  | 17 => some .getGlobal
  | 18 => some .setGlobal
  | 19 => some .getLocal
  | 20 => some .setLocal
  | 21 => some .jumpIfFalse
  | 22 => some .jump
  | 23 => some .loopOp
  | 24 => some .call
  | 25 => some .closureOp
  | 26 => some .getUpvalue
  | 27 => some .setUpvalue
  | 28 => some .closeUpvalue
  | 29 => some .classOp
  | 30 => some .getProperty
  | 31 => some .setProperty
  | _ => none

mutual

/-- The tagged runtime value of src/value.rs (enum Value).  f64 payloads are
modelled as Int; the Rc/RefCell sharing of instances is not modelled (no
claim under study depends on aliasing). -/
inductive Value where
  | nil : Value
  | boolean : Bool → Value
  | number : Int → Value
  | str : String → Value
  | function : Func → Value
  | native : NativeFn → Value
  | closure : ClosureV → Value
  | upvalue : UpvalueV → Value
  | classVal : ClassV → Value
  | instanceVal : InstV → Value

/-- struct Function of value.rs: arity, chunk, optional name, upvalue_count. -/
inductive Func where
  | mk : Nat → ChunkV → Option String → Nat → Func

/-- struct Chunk of chunk.rs: code bytes, per-byte source lines, constants. -/
inductive ChunkV where
  | mk : List Nat → List Nat → List Value → ChunkV

/-- struct NativeFunction of value.rs: name and arity. -/
inductive NativeFn where
  | mk : String → Nat → NativeFn

/-- struct Closure of value.rs: a function plus its upvalue cells. -/
inductive ClosureV where
  | mk : Func → List UpvalueV → ClosureV

/-- struct Upvalue of value.rs: a stack location and an optional closed value. -/
inductive UpvalueV where
  | mk : Nat → Option Value → UpvalueV

/-- struct Class of value.rs: just a name. -/
inductive ClassV where
  | mk : String → ClassV

/-- struct Instance of value.rs: a class and a field map. -/
inductive InstV where
  | mk : ClassV → List (String × Value) → InstV

end

def Func.arity : Func → Nat
  | .mk a _ _ _ => a

def Func.chunk : Func → ChunkV
  | .mk _ c _ _ => c

def Func.name : Func → Option String
  | .mk _ _ n _ => n

def Func.upvalueCount : Func → Nat
  | .mk _ _ _ u => u

def ChunkV.code : ChunkV → List Nat
  | .mk c _ _ => c

def ChunkV.lines : ChunkV → List Nat
  | .mk _ l _ => l

def ChunkV.constants : ChunkV → List Value
  | .mk _ _ k => k

def NativeFn.name : NativeFn → String
  | .mk n _ => n

def NativeFn.arity : NativeFn → Nat
  | .mk _ a => a

def ClosureV.function : ClosureV → Func
  | .mk f _ => f

def ClosureV.upvalues : ClosureV → List UpvalueV
  | .mk _ u => u

def UpvalueV.location : UpvalueV → Nat
  | .mk l _ => l

def UpvalueV.closed : UpvalueV → Option Value
  | .mk _ c => c

def ClassV.name : ClassV → String
  | .mk n => n

def InstV.cls : InstV → ClassV
  | .mk c _ => c

def InstV.fields : InstV → List (String × Value)
  | .mk _ f => f

/-- Chunk::new. -/
def ChunkV.new : ChunkV := .mk [] [] []

/-- Function::new. -/
def Func.new : Func := .mk 0 ChunkV.new none 0

/-! ## Chunk write operations (chunk.rs) and the compiler's in-place jump patch -/

/-- Chunk::write_code: append one code byte and its source line in lockstep. -/
def writeCode (c : ChunkV) (b line : Nat) : ChunkV :=
  .mk (c.code ++ [b]) (c.lines ++ [line]) c.constants

/-- Chunk::write_number: append a Number constant, return its index. -/
def writeNumber (c : ChunkV) (n : Int) : ChunkV × Nat :=
  (.mk c.code c.lines (c.constants ++ [Value.number n]), c.constants.length)

/-- Chunk::write_string: append a String constant, return its index. -/
def writeString (c : ChunkV) (s : String) : ChunkV × Nat :=
  (.mk c.code c.lines (c.constants ++ [Value.str s]), c.constants.length)

/-- Chunk::write_function: append a Function constant, return its index. -/
def writeFunction (c : ChunkV) (f : Func) : ChunkV × Nat :=
  (.mk c.code c.lines (c.constants ++ [Value.function f]), c.constants.length)

/-- Chunk::write_class: append a Class constant, return its index. -/
def writeClass (c : ChunkV) (cl : ClassV) : ChunkV × Nat :=
  (.mk c.code c.lines (c.constants ++ [Value.classVal cl]), c.constants.length)

/-- Compiler::patch_jump: overwrite the two placeholder bytes at offset and
offset+1 with the big-endian jump size (code.len() - offset - 2).  The
too-large-jump diagnostic does not touch the chunk and is elided here. -/
def patchJump (c : ChunkV) (offset : Nat) : ChunkV :=
  let jumpSize := c.code.length - offset - 2
  .mk (((c.code.set offset ((jumpSize >>> 8) % 256)).set (offset + 1) (jumpSize % 256)))
    c.lines c.constants

/-- One chunk-mutating operation, for quantifying over arbitrary operation
sequences (claim C9). -/
inductive ChunkOp where
  | opWriteCode : Nat → Nat → ChunkOp
  | opWriteNumber : Int → ChunkOp
  | opWriteString : String → ChunkOp
  | opWriteFunction : Func → ChunkOp
  | opWriteClass : ClassV → ChunkOp
  | opPatchJump : Nat → ChunkOp

def applyChunkOp (c : ChunkV) : ChunkOp → ChunkV
  | .opWriteCode b line => writeCode c b line
  | .opWriteNumber n => (writeNumber c n).1
  | .opWriteString s => (writeString c s).1
  | .opWriteFunction f => (writeFunction c f).1
  | .opWriteClass cl => (writeClass c cl).1
  | .opPatchJump offset => patchJump c offset

def applyChunkOps (c : ChunkV) (ops : List ChunkOp) : ChunkV :=
  ops.foldl applyChunkOp c

/-! ## Compiler state (compiler.rs): the pieces the claims exercise -/

/-- struct Local of compiler.rs: the token is represented by its lexeme (the
source performs identifiers_equal by comparing the lexeme slices), plus the
optional scope depth (None between declaration and initialisation). -/
structure LocalV where
  name : String
  depth : Option Nat

/-- The compiler fields the claims exercise.  locals models the fixed
256-entry array (a list of length 256); localCount is a u8 in the source;
scopeDepth a u16.  Diagnostics record the message text; the line-number
prefix of error_at is elided. -/
structure CompilerSt where
  chunk : ChunkV
  locals : List LocalV
  localCount : Nat
  scopeDepth : Nat
  hadError : Bool
  panicMode : Bool
  errors : List String
  prevLine : Nat

/-- Compiler::error_at (via error): in panic mode further reports are
suppressed; otherwise record the diagnostic and set had_error. -/
def compilerError (st : CompilerSt) (msg : String) : CompilerSt :=
  if st.panicMode then st
  else { st with hadError := true, panicMode := true, errors := st.errors ++ [msg] }

/-- Compiler::emit_byte: write one byte to the current chunk at the previous
token's line. -/
def emitByte (st : CompilerSt) (b : Nat) : CompilerSt :=
  { st with chunk := writeCode st.chunk b st.prevLine }

/-- Compiler::emit_bytes. -/
def emitBytes (st : CompilerSt) (b1 b2 : Nat) : CompilerSt :=
  emitByte (emitByte st b1) b2

/-- Compiler::emit_return: emits a single RETURN byte (no implicit NIL). -/
def emitReturn (st : CompilerSt) : CompilerSt :=
  emitByte st OpCode.ret.toU8

/-- Compiler::end_compiler: just emit_return. -/
def endCompiler (st : CompilerSt) : CompilerSt :=
  emitReturn st

/-- The bytecode-emitting tail of Compiler::function (compiler.rs lines
1070-1073): the finished inner Function is written to the parent chunk's
constants and the parent emits CONSTANT followed by the constant index
(func_index as u8).  No CLOSURE opcode and no upvalue operand bytes are
emitted. -/
def functionEmitTail (parent : CompilerSt) (func : Func) : CompilerSt :=
  let wf := writeFunction parent.chunk func
  emitBytes { parent with chunk := wf.1 } OpCode.constant.toU8 (wf.2 % 256)

/-- Compiler::add_local.  The guard compares local_count (a u8, hence at most
255) against u8::MAX + 1 = 256, so it can never fire; the increment is u8
arithmetic, modelled as wrapping mod 256 (debug builds panic at the same
point instead of wrapping; either way the guard's diagnostic is never
reported). -/
def addLocal (st : CompilerSt) (name : String) : CompilerSt :=
  if st.localCount = 256 then
    compilerError st "Too many local variables in block"
  else
    { st with
      locals := st.locals.set st.localCount ⟨name, none⟩,
      localCount := (st.localCount + 1) % 256 }

/-- Compiler::identifiers_equal compares the two lexeme slices; tokens are
modelled by their lexemes, so this is string equality. -/
def identifiersEqual (a b : String) : Bool := a == b

/-- The scan loop of Compiler::declare_variable, examining locals[i] for
i = fuel-1 down to 0.  The source's continue-guard is
(local.depth == None && local.depth.unwrap() < self.scope_depth): when depth
is None the unwrap panics, and when depth is Some the conjunction is already
false, so the loop never skips an enclosing-scope local and compares the new
name against every live local. -/
def declareScan (name : String) : CompilerSt → Nat → Except String CompilerSt
  | st, 0 => .ok st
  | st, i + 1 =>
    match st.locals.get? i with
    | none => .error "panicked: index out of bounds"
    | some l =>
      match l.depth with
      | none => .error "panicked: called Option unwrap on a None value"
      | some _ =>
        let st :=
          if identifiersEqual name l.name then
            compilerError st "Already a variable with this name in this scope."
          else st
        declareScan name st i

/-- Compiler::declare_variable: nothing to do at global scope; otherwise scan
all locals (see declareScan) and then add_local. -/
def declareVariable (st : CompilerSt) (name : String) : Except String CompilerSt :=
  if st.scopeDepth = 0 then .ok st
  else
    match declareScan name st st.localCount with
    | .error m => .error m
    | .ok st1 => .ok (addLocal st1 name)

/-! ## Value rendering (vm.rs print_value, and the {:?} debug strings used in
runtime-error messages) -/

/-- Default formatting of a Lox number (Rust println on f64).  For the
integer-valued numbers the claims use, f64 renders without a fractional
part, matching Int toString. -/
def numFormat (n : Int) : String := toString n

/-- The derive(Debug) rendering used by {:?} in runtime-error messages.
Primitive variants are rendered faithfully (an integer-valued f64 debug
string is the integer followed by .0); the payload text of the compound
variants is elided as .., which no claim inspects. -/
def valueDebug : Value → String
  | .nil => "Nil"
  | .boolean true => "Boolean(true)"
  | .boolean false => "Boolean(false)"
  | .number n => "Number(" ++ toString n ++ ".0)"
  | .str s => "String(\x22" ++ s ++ "\x22)"
  | .function _ => "Function(..)"
  | .native _ => "NativeFunction(..)"
  | .closure _ => "Closure(..)"
  | .upvalue _ => "Upvalue(..)"
  | .classVal _ => "Class(..)"
  | .instanceVal _ => "Instance(..)"

/-- {:?} on an Option<Value>. -/
def optValueDebug : Option Value → String
  | none => "None"
  | some v => "Some(" ++ valueDebug v ++ ")"

/-- Rust s.split for the two-character pattern backslash-n used by
print_value on strings: split the character list at every occurrence of
a backslash immediately followed by n. -/
def splitEscN : List Char → List Char → List String
  | [], acc => [String.mk acc.reverse]
  | [c], acc => [String.mk (c :: acc).reverse]
  | c1 :: c2 :: rest, acc =>
    if c1 = '\\' ∧ c2 = 'n' then
      String.mk acc.reverse :: splitEscN rest []
    else
      splitEscN (c2 :: rest) (c1 :: acc)

/-- The lines println by VM::print_value for one value (strings are split on
a literal backslash-n; numbers use default formatting; upvalues are
debug-printed). -/
def printValueLines : Value → List String
  | .str s => splitEscN s.data []
  | .number n => [numFormat n]
  | .boolean true => ["true"]
  | .boolean false => ["false"]
  | .nil => ["nil"]
  | .function f =>
    match f.name with
    | some n => ["<fn " ++ n ++ ">"]
    | none => ["<script>"]
  | .native _ => ["<native fn>"]
  | .closure c =>
    match c.function.name with
    | some n => ["<closure " ++ n ++ ">"]
    | none => ["<closure>"]
  | .upvalue u => [valueDebug (.upvalue u)]
  | .classVal c => [c.name]
  | .instanceVal i => [i.cls.name ++ " instance"]

/-! ## The VM state (vm.rs) -/

/-- struct CallFrame: closure, instruction pointer, stack base slot. -/
structure Frame where
  closure : ClosureV
  ip : Nat
  slot : Nat

/-- The VM state.  frames holds the frame_count active frames (innermost
last; the source stores them in a fixed array of 64 and checks frame_count
against MAX_FRAMES on call).  printed records stdout lines from PRINT;
errors records runtime-error diagnostics (the stack-trace text that
runtime_error prints alongside the message is elided).  clockMillis is the
external wall-clock input read by the clock native. -/
structure VMState where
  valueStack : List Value
  frames : List Frame
  globals : List (String × Value)
  printed : List String
  errors : List String
  clockMillis : Int

/-- ValueStack::push for Vec<Value>. -/
def stackPush (st : VMState) (v : Value) : VMState :=
  { st with valueStack := st.valueStack ++ [v] }

/-- ValueStack::pop for Vec<Value> (None on an empty stack). -/
def stackPop (st : VMState) : Option Value × VMState :=
  (st.valueStack.getLast?, { st with valueStack := st.valueStack.dropLast })

/-- ValueStack::size. -/
def stackSize (st : VMState) : Nat := st.valueStack.length

/-- ValueStack::get_value_at_idx; the source indexes the Vec directly, so an
out-of-range index is a Rust panic, modelled as none. -/
def getValueAtIdx (st : VMState) (i : Nat) : Option Value :=
  st.valueStack.get? i

/-- ValueStack::set_value_at_idx: self[index] = value; an out-of-range
index is a Rust panic in every build, modelled as none. -/
def setValueAtIdx (st : VMState) (i : Nat) (v : Value) : Option VMState :=
  if i < st.valueStack.length then
    some { st with valueStack := st.valueStack.set i v }
  else none

/-- ValueStack::peek: self[len - 1 - distance]; peeking deeper than the
stack is a usize-underflow panic in Rust, modelled as none. -/
def stackPeek (st : VMState) (distance : Nat) : Option Value :=
  if distance < stackSize st then st.valueStack.get? (stackSize st - 1 - distance)
  else none

/-- ValueStack::last_value. -/
def lastValue (st : VMState) : Option Value := st.valueStack.getLast?

/-- The active frame frames[frame_count - 1]. -/
def currentFrame (st : VMState) : Option Frame := st.frames.getLast?

def setCurrentFrame (st : VMState) (f : Frame) : VMState :=
  { st with frames := st.frames.dropLast ++ [f] }

/-- VM::runtime_error: print the stack trace and the message; modelled by
recording the message. -/
def vmRuntimeError (st : VMState) (msg : String) : VMState :=
  { st with errors := st.errors ++ [msg] }

/-- VM::is_falsey. -/
def isFalsey : Value → Bool
  | .nil => true
  | .boolean tf => !tf
  | _ => false

/-- Association-list insert-or-replace (HashMap::insert). -/
def assocInsert (m : List (String × Value)) (k : String) (v : Value) :
    List (String × Value) :=
  match m with
  | [] => [(k, v)]
  | (k0, v0) :: rest =>
    if k0 = k then (k, v) :: rest else (k0, v0) :: assocInsert rest k v

/-- Association-list lookup (HashMap::get). -/
def assocGet (m : List (String × Value)) (k : String) : Option Value :=
  match m with
  | [] => none
  | (k0, v0) :: rest => if k0 = k then some v0 else assocGet rest k

/-- Association-list key-presence test (HashMap::contains_key). -/
def assocContains (m : List (String × Value)) (k : String) : Bool :=
  match m with
  | [] => false
  | (k0, _) :: rest => if k0 = k then true else assocContains rest k

/-- The outcome of dispatching one bytecode instruction.  next continues the
loop; finished is InterpretResult::Ok; runtimeErrorHalt is
InterpretResult::RuntimeError; panicked is a Rust panic (todo!, unwrap on
None, index out of bounds); unmodeledOp marks the one handler this
development does not embed (see runOp). -/
inductive StepOutcome where
  | next : VMState → StepOutcome
  | finished : VMState → StepOutcome
  | runtimeErrorHalt : VMState → StepOutcome
  | panicked : String → StepOutcome
  | unmodeledOp : StepOutcome

/-! ## Per-instruction helpers translated from VM::run -/

/-- The match of OpCode::Equal on the two popped values (b popped first, then
a).  Rust f64, bool and String equality on the payloads; every variant not
listed (Function, NativeFunction, Closure, Upvalue, Class, Instance) falls
to the catch-all arm and compares false.  none is a popped-empty-stack
return of RuntimeError. -/
def eqValues : Option Value → Option Value → Option Bool
  | some (.number n2), a =>
    match a with
    | some (.number n1) => some (n1 == n2)
    | none => none
    | some _ => some false
  | some (.boolean t2), a =>
    match a with
    | some (.boolean t1) => some (t1 == t2)
    | none => none
    | some _ => some false
  | some .nil, a =>
    match a with
    | some .nil => some true
    | none => none
    | some _ => some false
  | some (.str s2), a =>
    match a with
    | some (.str s1) => some (s1 == s2)
    | _ => some false
  | none, _ => none
  | some _, _ => some false

/-- The match of OpCode::Add on the two popped values (b popped first, then
a): numbers add, strings concatenate, a number meets a string by being
stringified in place; anything else is a runtime error with the message
given in the source. -/
def addValues : Option Value → Option Value → Except String Value
  | some (.number n2), a =>
    match a with
    | some (.number n1) => .ok (.number (n1 + n2))
    | some (.str s1) => .ok (.str (s1 ++ numFormat n2))
    | v => .error ("LHS of addition can't be added to a number: " ++ optValueDebug v)
  | some (.str s2), a =>
    match a with
    | some (.str s1) => .ok (.str (s1 ++ s2))
    | some (.number n) => .ok (.str (numFormat n ++ s2))
    | v => .error ("LHS of addition can't be added to a string: " ++ optValueDebug v)
  | v, _ => .error ("RHS of addition is an invalid addend: " ++ optValueDebug v)

/-- The result of VM::call_value and its callees: ok means true was
returned (possibly after mutating the state), fail means false was returned
after reporting a runtime error, panicked is a Rust panic. -/
inductive CallResult where
  | ok : VMState → CallResult
  | fail : VMState → CallResult
  | panicked : String → CallResult

/-- MAX_FRAMES of vm.rs. -/
def MAX_FRAMES : Nat := 64

/-- VM::call: arity check, frame-overflow check, then push a frame whose
slot is stack.size - arg_count - 1 (a usize subtraction; its underflow is a
panic). -/
def vmCall (st : VMState) (cl : ClosureV) (argCount : Nat) : CallResult :=
  if argCount ≠ cl.function.arity then
    .fail (vmRuntimeError st
      ("Expected " ++ toString cl.function.arity ++ " arguments but got " ++
        toString argCount))
  else if st.frames.length = MAX_FRAMES then
    .fail (vmRuntimeError st "Stack overflow.")
  else if stackSize st < argCount + 1 then
    .panicked "usize underflow computing frame slot"
  else
    .ok { st with frames := st.frames ++ [⟨cl, 0, stackSize st - argCount - 1⟩] }

/-- VM::call_native: arity and frame checks as in call; clock pops the
callee and pushes the wall-clock reading; the limit branch begins with
todo! and panics; any other name is a runtime error. -/
def vmCallNative (st : VMState) (f : NativeFn) (argCount : Nat) : CallResult :=
  if argCount ≠ f.arity then
    .fail (vmRuntimeError st
      ("Expected " ++ toString f.arity ++ " arguments but got " ++ toString argCount))
  else if st.frames.length = MAX_FRAMES then
    .fail (vmRuntimeError st "Stack overflow.")
  else if f.name = "clock" then
    .ok (stackPush (stackPop st).2 (.number st.clockMillis))
  else if f.name = "limit" then
    .panicked "not yet implemented: Clean this up to do more interesting things"
  else
    .fail (vmRuntimeError st ("No native function named '" ++ f.name ++ "'"))

/-- VM::call_value: a Class callee is replaced in place by a fresh Instance
with empty fields; a Closure goes through call; a NativeFunction through
call_native; every other variant reports a runtime error and returns
false. -/
def callValue (st : VMState) (callee : Value) (argCount : Nat) : CallResult :=
  match callee with
  | .classVal c =>
    if stackSize st < argCount + 1 then .panicked "usize underflow in class call"
    else
      match setValueAtIdx st (stackSize st - argCount - 1)
          (.instanceVal (InstV.mk c [])) with
      | none => .panicked "index out of bounds"
      | some st2 => .ok st2
  | .closure cl => vmCall st cl argCount
  | .native f => vmCallNative st f argCount
  | v => .fail (vmRuntimeError st ("Can't call value " ++ valueDebug v))

/-- One iteration of VM::close_upvalues on a single upvalue cell of the
returned closure: a still-open cell whose location is above the returning
frame's slot captures the stack value at its location (an out-of-range
location would be a Rust panic, modelled as none). -/
def closeUpvalueCell (stack : List Value) (slot : Nat) (u : UpvalueV) :
    Option UpvalueV :=
  match u.closed with
  | some _ => some u
  | none =>
    if u.location > slot then
      (stack.get? u.location).map (fun v => UpvalueV.mk u.location (some v))
    else some u

/-- VM::close_upvalues over all cells of a closure. -/
def closeUpvaluesOf (stack : List Value) (slot : Nat) (cl : ClosureV) :
    Option ClosureV :=
  ((cl.upvalues).mapM (closeUpvalueCell stack slot)).map (ClosureV.mk cl.function)

/-- read_byte!: fetch code[ip] of the active frame and advance ip (the fetch
panics when the frame stack is empty or ip is out of range). -/
def readByte (st : VMState) : Option (Nat × VMState) :=
  match currentFrame st with
  | none => none
  | some f =>
    match f.closure.function.chunk.code.get? f.ip with
    | none => none
    | some b => some (b, setCurrentFrame st { f with ip := f.ip + 1 })

/-- read_constant!: read one byte and index the active chunk's constants
with it (out of range panics). -/
def readConstant (st : VMState) : Option (Value × VMState) :=
  match readByte st with
  | none => none
  | some (idx, st1) =>
    match currentFrame st1 with
    | none => none
    | some f =>
      match f.closure.function.chunk.constants.get? idx with
      | none => none
      | some v => some (v, st1)

/-- read_short!: two bytes, big-endian. -/
def readShort (st : VMState) : Option (Nat × VMState) :=
  match readByte st with
  | none => none
  | some (hi, st1) =>
    match readByte st1 with
    | none => none
    | some (lo, st2) => some (hi * 256 + lo, st2)

/-- The source line of the active frame's current ip, read by the
binary_op! error path (out of range panics). -/
def currentLine (st : VMState) : Option Nat :=
  match currentFrame st with
  | none => none
  | some f => f.closure.function.chunk.lines.get? f.ip

/-- binary_op! for SUBTRACT / MULTIPLY / DIVIDE: both operands must be
numbers; otherwise a diagnostic naming the offending side is printed (the
source reads the current line for the diagnostic prefix, a panic when out
of range) and RuntimeError is returned. -/
def binaryNumOp (st : VMState) (f : Int → Int → Int) : StepOutcome :=
  let p1 := stackPop st
  let p2 := stackPop p1.2
  let st2 := p2.2
  match p1.1 with
  | some (.number n2) =>
    match p2.1 with
    | some (.number n1) => .next (stackPush st2 (.number (f n1 n2)))
    | a =>
      match currentLine st2 with
      | none => .panicked "line index out of bounds"
      | some _ =>
        .runtimeErrorHalt (vmRuntimeError st2
          ("Performing binary operation because LHS isn't a number. LHS = " ++
            optValueDebug a))
  | b =>
    match currentLine st2 with
    | none => .panicked "line index out of bounds"
    | some _ =>
      .runtimeErrorHalt (vmRuntimeError st2
        ("Performing binary operation because RHS isn't a number. RHS = " ++
          optValueDebug b))

/-! ## Opcode handlers translated one-for-one from the match in VM::run -/

/-- OpCode::Return: pop the result (unwrap), close upvalues when it is a
closure, drop the frame; when it was the last frame pop once more and
finish, otherwise truncate the stack to the frame's slot and push the
result. -/
def runReturn (st : VMState) : StepOutcome :=
  match stackPop st with
  | (none, _) => .panicked "unwrap on None in RETURN"
  | (some result, st1) =>
    match currentFrame st1 with
    | none => .panicked "no active frame"
    | some f =>
      let closedResult : Option Value :=
        match result with
        | .closure cl => (closeUpvaluesOf st1.valueStack f.slot cl).map Value.closure
        | v => some v
      match closedResult with
      | none => .panicked "close_upvalues index out of bounds"
      | some result =>
        let st2 := { st1 with frames := st1.frames.dropLast }
        if st2.frames.length = 0 then
          .finished (stackPop st2).2
        else
          .next (stackPush { st2 with valueStack := st2.valueStack.take f.slot } result)

/-- OpCode::Constant: push a clone of the read constant. -/
def constantExec (st : VMState) : StepOutcome :=
  match readConstant st with
  | none => .panicked "read_constant out of bounds"
  | some (v, st1) => .next (stackPush st1 v)

/-- OpCode::Add, via the addValues case analysis (b popped first). -/
def addExec (st : VMState) : StepOutcome :=
  let p1 := stackPop st
  let p2 := stackPop p1.2
  match addValues p1.1 p2.1 with
  | .ok v => .next (stackPush p2.2 v)
  | .error msg => .runtimeErrorHalt (vmRuntimeError p2.2 msg)

/-- OpCode::Not: pop, push is_falsey; popping an empty stack is a reported
runtime error. -/
def notExec (st : VMState) : StepOutcome :=
  let p := stackPop st
  match p.1 with
  | some v => .next (stackPush p.2 (.boolean (isFalsey v)))
  | none =>
    .runtimeErrorHalt (vmRuntimeError p.2 "Can't perform negation on 'None' value.")

/-- OpCode::Negate: pop, push the negated number; anything else is a
runtime error. -/
def negateExec (st : VMState) : StepOutcome :=
  let p := stackPop st
  match p.1 with
  | some (.number n) => .next (stackPush p.2 (.number (-n)))
  | v =>
    .runtimeErrorHalt (vmRuntimeError p.2
      ("Can't negate non-numeric value: " ++ optValueDebug v))

/-- OpCode::Equal, via the eqValues case analysis (b popped first); the
none result (an empty pop in an arm without a catch-all) returns
RuntimeError without a diagnostic. -/
def equalExec (st : VMState) : StepOutcome :=
  let p1 := stackPop st
  let p2 := stackPop p1.2
  match eqValues p1.1 p2.1 with
  | some b => .next (stackPush p2.2 (.boolean b))
  | none => .runtimeErrorHalt p2.2

/-- OpCode::Greater: both operands must be numbers. -/
def greaterExec (st : VMState) : StepOutcome :=
  let p1 := stackPop st
  let p2 := stackPop p1.2
  match p1.1 with
  | some (.number n2) =>
    match p2.1 with
    | some (.number n1) => .next (stackPush p2.2 (.boolean (decide (n1 > n2))))
    | a =>
      .runtimeErrorHalt (vmRuntimeError p2.2
        ("Can't perform > operation on value " ++ optValueDebug a))
  | b =>
    .runtimeErrorHalt (vmRuntimeError p2.2
      ("Can't perform > operation on value " ++ optValueDebug b))

/-- OpCode::Less: both operands must be numbers. -/
def lessExec (st : VMState) : StepOutcome :=
  let p1 := stackPop st
  let p2 := stackPop p1.2
  match p1.1 with
  | some (.number n2) =>
    match p2.1 with
    | some (.number n1) => .next (stackPush p2.2 (.boolean (decide (n1 < n2))))
    | a =>
      .runtimeErrorHalt (vmRuntimeError p2.2
        ("Can't perform < operation on value " ++ optValueDebug a))
  | b =>
    .runtimeErrorHalt (vmRuntimeError p2.2
      ("Can't perform < operation on value " ++ optValueDebug b))

/-- OpCode::Print: pop and render; an open upvalue value is printed through
its stack location, a closed one prints a stray here? line first; an empty
pop returns RuntimeError. -/
def printExec (st : VMState) : StepOutcome :=
  let p := stackPop st
  match p.1 with
  | some (.upvalue u) =>
    match u.closed with
    | none =>
      match getValueAtIdx p.2 u.location with
      | none => .panicked "index out of bounds"
      | some v => .next { p.2 with printed := p.2.printed ++ printValueLines v }
    | some closed =>
      .next { p.2 with printed := (p.2.printed ++ ["here?"]) ++ printValueLines closed }
  | some v => .next { p.2 with printed := p.2.printed ++ printValueLines v }
  | none => .runtimeErrorHalt p.2

/-- OpCode::DefineGlobal: the name constant must be a string (or a class,
keyed by its name); store peek(0) under it, then pop. -/
def defineGlobalExec (st : VMState) : StepOutcome :=
  match readConstant st with
  | none => .panicked "read_constant out of bounds"
  | some (name, st1) =>
    match name with
    | .str s =>
      match lastValue st1 with
      | none => .panicked "unwrap on None"
      | some v => .next (stackPop { st1 with globals := assocInsert st1.globals s v }).2
    | .classVal c =>
      match lastValue st1 with
      | none => .panicked "unwrap on None"
      | some v =>
        .next (stackPop { st1 with globals := assocInsert st1.globals c.name v }).2
    | v =>
      .runtimeErrorHalt (vmRuntimeError st1
        ("Can't define global with non-string constant " ++ valueDebug v))

/-- OpCode::GetGlobal. -/
def getGlobalExec (st : VMState) : StepOutcome :=
  match readConstant st with
  | none => .panicked "read_constant out of bounds"
  | some (name, st1) =>
    match name with
    | .str s =>
      match assocGet st1.globals s with
      | some v => .next (stackPush st1 v)
      | none =>
        .runtimeErrorHalt (vmRuntimeError st1
          ("Global var '" ++ s ++ "' does not exist."))
    | v =>
      .runtimeErrorHalt (vmRuntimeError st1 ("Invalid global accessor: " ++ valueDebug v))

/-- OpCode::SetGlobal: the name must already be present; overwrite it with
peek(0), leaving the value on the stack. -/
def setGlobalExec (st : VMState) : StepOutcome :=
  match readConstant st with
  | none => .panicked "read_constant out of bounds"
  | some (name, st1) =>
    match name with
    | .str s =>
      if assocContains st1.globals s then
        match lastValue st1 with
        | none => .panicked "unwrap on None"
        | some v => .next { st1 with globals := assocInsert st1.globals s v }
      else
        .runtimeErrorHalt (vmRuntimeError st1
          ("Global var '" ++ s ++ "' does not exist."))
    | v =>
      .runtimeErrorHalt (vmRuntimeError st1 ("Invalid global accessor: " ++ valueDebug v))

/-- The wrapping u8 index computation of GET_LOCAL / SET_LOCAL:
read_byte!() + frame.slot as u8. -/
def localIndex (slotByte frameSlot : Nat) : Nat :=
  (slotByte % 256 + frameSlot % 256) % 256

/-- OpCode::GetLocal after its operand byte has been read: push the value
at the u8-computed absolute index (an out-of-range index panics). -/
def getLocalExec (st : VMState) (slotByte : Nat) : StepOutcome :=
  match currentFrame st with
  | none => .panicked "no active frame"
  | some f =>
    match getValueAtIdx st (localIndex slotByte f.slot) with
    | none => .panicked "index out of bounds"
    | some v => .next (stackPush st v)

/-- OpCode::SetLocal after its operand byte has been read: write peek(0) at
the u8-computed absolute index without popping. -/
def setLocalExec (st : VMState) (slotByte : Nat) : StepOutcome :=
  match currentFrame st with
  | none => .panicked "no active frame"
  | some f =>
    match stackPeek st 0 with
    | none => .panicked "peek on empty stack"
    | some top =>
      match setValueAtIdx st (localIndex slotByte f.slot) top with
      | none => .panicked "index out of bounds"
      | some st2 => .next st2

/-- OpCode::JumpIfFalse: read a u16, peek the condition (left on the
stack), and advance ip when it is falsey. -/
def jumpIfFalseExec (st : VMState) : StepOutcome :=
  match readShort st with
  | none => .panicked "read_short out of bounds"
  | some (offset, st1) =>
    match stackPeek st1 0 with
    | none => .panicked "peek on empty stack"
    | some v =>
      if isFalsey v then
        match currentFrame st1 with
        | none => .panicked "no active frame"
        | some f => .next (setCurrentFrame st1 { f with ip := f.ip + offset })
      else .next st1

/-- OpCode::Jump. -/
def jumpExec (st : VMState) : StepOutcome :=
  match readShort st with
  | none => .panicked "read_short out of bounds"
  | some (offset, st1) =>
    match currentFrame st1 with
    | none => .panicked "no active frame"
    | some f => .next (setCurrentFrame st1 { f with ip := f.ip + offset })

/-- OpCode::Loop: ip -= offset is a usize subtraction; underflow panics. -/
def loopExec (st : VMState) : StepOutcome :=
  match readShort st with
  | none => .panicked "read_short out of bounds"
  | some (offset, st1) =>
    match currentFrame st1 with
    | none => .panicked "no active frame"
    | some f =>
      if offset > f.ip then .panicked "usize underflow in LOOP"
      else .next (setCurrentFrame st1 { f with ip := f.ip - offset })

/-- OpCode::Call after its arg-count byte has been read: dispatch on
peek(arg_count) through call_value; a false return ends interpretation with
RuntimeError. -/
def callExec (st : VMState) (argCount : Nat) : StepOutcome :=
  match stackPeek st argCount with
  | none => .panicked "peek out of range"
  | some callee =>
    match callValue st callee argCount with
    | .ok st2 => .next st2
    | .fail st2 => .runtimeErrorHalt st2
    | .panicked m => .panicked m

/-- OpCode::GetUpvalue: a closed cell pushes its owned value; an open cell
pushes the upvalue itself as a Value. -/
def getUpvalueExec (st : VMState) (slot : Nat) : StepOutcome :=
  match currentFrame st with
  | none => .panicked "no active frame"
  | some f =>
    match f.closure.upvalues.get? slot with
    | none => .panicked "index out of bounds"
    | some u =>
      match u.closed with
      | some v => .next (stackPush st v)
      | none => .next (stackPush st (.upvalue u))

/-- OpCode::SetUpvalue: a closed cell stores peek(0); an open cell writes
through its stack location.  (The Rc sharing of cells between closures is
not modelled; no claim exercises it.) -/
def setUpvalueExec (st : VMState) (slot : Nat) : StepOutcome :=
  match currentFrame st with
  | none => .panicked "no active frame"
  | some f =>
    match stackPeek st 0 with
    | none => .panicked "peek on empty stack"
    | some top =>
      match f.closure.upvalues.get? slot with
      | none => .panicked "index out of bounds"
      | some u =>
        match u.closed with
        | some _ =>
          .next (setCurrentFrame st
            { f with closure := (ClosureV.mk f.closure.function
                (f.closure.upvalues.set slot (UpvalueV.mk u.location (some top)))) })
        | none =>
          match setValueAtIdx st u.location top with
          | none => .panicked "index out of bounds"
          | some st2 => .next st2

/-- OpCode::Class: push a clone of the read constant. -/
def classExec (st : VMState) : StepOutcome :=
  match readConstant st with
  | none => .panicked "read_constant out of bounds"
  | some (v, st1) => .next (stackPush st1 v)

/-- OpCode::GetProperty: peek(0) must be an instance and the constant a
string; a present field pops the instance and pushes the value.  A missing
field, a non-string accessor, or a non-instance receiver report a runtime
error but fall through without returning, so execution continues with the
stack unchanged. -/
def getPropertyExec (st : VMState) : StepOutcome :=
  match stackPeek st 0 with
  | none => .panicked "peek on empty stack"
  | some instVal =>
    match readConstant st with
    | none => .panicked "read_constant out of bounds"
    | some (propName, st1) =>
      match instVal with
      | .instanceVal i =>
        match propName with
        | .str pname =>
          match assocGet i.fields pname with
          | some v => .next (stackPush (stackPop st1).2 v)
          | none =>
            .next (vmRuntimeError st1 ("Undefined property '" ++ pname ++ "'."))
        | pv =>
          .next (vmRuntimeError st1
            ("Value " ++ valueDebug pv ++
              " is not a valid property accessor (must be a string)."))
      | v =>
        .next (vmRuntimeError st1 ("Value " ++ valueDebug v ++ " is not an instance."))

/-- OpCode::SetProperty: peek(1) must be an instance and the constant a
string; the error arms report a runtime error but fall through, and in
every case the value and the receiver are popped and the value pushed
back.  (Field mutation is modelled on the stack-resident instance; the Rc
aliasing of instances is not modelled, and no claim depends on it.) -/
def setPropertyExec (st : VMState) : StepOutcome :=
  match stackPeek st 1, stackPeek st 0 with
  | some instVal, some valueToSet =>
    match readConstant st with
    | none => .panicked "read_constant out of bounds"
    | some (propName, st1) =>
      let st2opt : Option VMState :=
        match instVal with
        | .instanceVal i =>
          match propName with
          | .str pname =>
            setValueAtIdx st1 (stackSize st1 - 2)
              (.instanceVal (InstV.mk i.cls (assocInsert i.fields pname valueToSet)))
          | pv =>
            some (vmRuntimeError st1
              ("Value " ++ valueDebug pv ++
                " is not a valid property accessor (must be a string)."))
        | v =>
          some (vmRuntimeError st1
            ("Value " ++ valueDebug v ++ " is not an instance."))
      match st2opt with
      | none => .panicked "index out of bounds"
      | some st2 =>
        let p1 := stackPop st2
        let p2 := stackPop p1.2
        match p1.1 with
        | none => .panicked "unwrap on None"
        | some v => .next (stackPush p2.2 v)
  | _, _ => .panicked "peek out of range"

/-- Read one operand byte, then run a handler that needs it. -/
def withByte (st : VMState) (k : VMState → Nat → StepOutcome) : StepOutcome :=
  match readByte st with
  | none => .panicked "read_byte out of bounds"
  | some (b, st1) => k st1 b

/-- The dispatch of VM::run on one decoded instruction.  OpCode::Closure is
the one handler this development does not embed: its capture_upvalue walk
relies on next and index fields of Upvalue that vm.rs assumes but
value.rs's Upvalue does not define, and no claim exercises it.
OpCode::CloseUpvalue is the todo! handler: dispatching it panics. -/
def runOp : OpCode → VMState → StepOutcome
  | .ret, st => runReturn st
  | .constant, st => constantExec st
  | .nilOp, st => .next (stackPush st .nil)
  | .trueOp, st => .next (stackPush st (.boolean true))
  | .falseOp, st => .next (stackPush st (.boolean false))
  | .equal, st => equalExec st
  | .greater, st => greaterExec st
  | .less, st => lessExec st
  | .negate, st => negateExec st
  | .add, st => addExec st
  | .subtract, st => binaryNumOp st (fun a b => a - b)
  | .multiply, st => binaryNumOp st (fun a b => a * b)
  | .divide, st => binaryNumOp st (fun a b => a / b)
  | .notOp, st => notExec st
  | .printOp, st => printExec st
  | .popOp, st => .next (stackPop st).2
  | .defineGlobal, st => defineGlobalExec st
  | .getGlobal, st => getGlobalExec st
  | .setGlobal, st => setGlobalExec st
  | .getLocal, st => withByte st getLocalExec
  | .setLocal, st => withByte st setLocalExec
  | .jumpIfFalse, st => jumpIfFalseExec st
  | .jump, st => jumpExec st
  | .loopOp, st => loopExec st
  | .call, st => withByte st callExec
  | .closureOp, _ => .unmodeledOp
  | .getUpvalue, st => withByte st getUpvalueExec
  | .setUpvalue, st => withByte st setUpvalueExec
  | .closeUpvalue, _ => .panicked "not yet implemented: what do i do here"
  | .classOp, st => classExec st
  | .getProperty, st => getPropertyExec st
  | .setProperty, st => setPropertyExec st

/-- One iteration of the dispatch loop: fetch, decode (unwrap), execute. -/
def runStep (st : VMState) : StepOutcome :=
  match readByte st with
  | none => .panicked "instruction fetch out of bounds"
  | some (b, st1) =>
    match OpCode.fromU8 b with
    | none => .panicked "unwrap on None opcode"
    | some op => runOp op st1

/-- The dispatch loop with fuel; fuel exhaustion surfaces as next. -/
def runLoop : Nat → VMState → StepOutcome
  | 0, st => .next st
  | n + 1, st =>
    match runStep st with
    | .next st1 => runLoop n st1
    | o => o

def StepOutcome.isFinished : StepOutcome → Bool
  | .finished _ => true
  | _ => false

def StepOutcome.isRuntimeErrorHalt : StepOutcome → Bool
  | .runtimeErrorHalt _ => true
  | _ => false

def StepOutcome.isNext : StepOutcome → Bool
  | .next _ => true
  | _ => false

/-- The runtime-error diagnostics recorded in an outcome's state. -/
def StepOutcome.errorsOf : StepOutcome → List String
  | .next st => st.errors
  | .finished st => st.errors
  | .runtimeErrorHalt st => st.errors
  | _ => []

/-- The value stack recorded in an outcome's state. -/
def StepOutcome.stackOf : StepOutcome → List Value
  | .next st => st.valueStack
  | .finished st => st.valueStack
  | .runtimeErrorHalt st => st.valueStack
  | _ => []

/-- The EQUAL case analysis restricted to two present operands, as a Bool
(a was pushed first, b popped first); used to state properties of
eqValues. -/
def valuesEqual (a b : Value) : Bool :=
  match b with
  | .number n2 =>
    match a with
    | .number n1 => n1 == n2
    | _ => false
  | .boolean t2 =>
    match a with
    | .boolean t1 => t1 == t2
    | _ => false
  | .nil =>
    match a with
    | .nil => true
    | _ => false
  | .str s2 =>
    match a with
    | .str s1 => s1 == s2
    | _ => false
  | _ => false

/-- The four variants EQUAL can ever report as equal. -/
def isPrimValue : Value → Bool
  | .nil => true
  | .boolean _ => true
  | .number _ => true
  | .str _ => true
  | _ => false

/-- A zero-argument script closure over a given chunk (interpret wraps the
top-level Function in a Closure with no upvalues). -/
def scriptClosureOf (c : ChunkV) : ClosureV := ClosureV.mk (Func.mk 0 c none 0) []

/-- A VM state with one script frame at slot 0 over the given chunk. -/
def mkScriptState (c : ChunkV) (stack : List Value) : VMState :=
  ⟨stack, [⟨scriptClosureOf c, 0, 0⟩], [], [], [], 0⟩

/-- Bytecode of: GET_PROPERTY q; RETURN. -/
def c1GetPropChunk : ChunkV := ChunkV.mk [30, 0, 0] [1, 1, 1] [Value.str "q"]

/-- Stack holds the script closure and an instance of class P with no
fields, about to run GET_PROPERTY q (the compiled tail of
class P {} var p = P(); p.q;). -/
def c1GetPropState : VMState :=
  mkScriptState c1GetPropChunk
    [Value.closure (scriptClosureOf c1GetPropChunk),
     Value.instanceVal (InstV.mk (ClassV.mk "P") [])]

/-- Bytecode of: SET_PROPERTY q; RETURN. -/
def c1SetPropChunk : ChunkV := ChunkV.mk [31, 0, 0] [1, 1, 1] [Value.str "q"]

/-- Stack holds the script closure, a non-instance receiver (the number 1)
and the value 2, about to run SET_PROPERTY q (the compiled tail of
var x = 1; x.q = 2;). -/
def c1SetPropState : VMState :=
  mkScriptState c1SetPropChunk
    [Value.closure (scriptClosureOf c1SetPropChunk), Value.number 1, Value.number 2]

/-- Bytecode of: GET_LOCAL 0. -/
def c6Chunk : ChunkV := ChunkV.mk [19, 0] [1, 1] []

/-- A frame whose stack base is slot 256 (reachable: 64 frames with up to
256 locals each share one value stack). -/
def c6Frame : Frame := ⟨scriptClosureOf c6Chunk, 0, 256⟩

/-- A 257-deep value stack holding 1 at absolute index 0 and 2 at absolute
index 256. -/
def c6Stack : List Value :=
  Value.number 1 :: (List.replicate 255 Value.nil ++ [Value.number 2])

def c6State : VMState := ⟨c6Stack, [c6Frame], [], [], [], 0⟩

/-- Bytecode of a lone CLOSE_UPVALUE. -/
def c10Chunk : ChunkV := ChunkV.mk [28] [1] []

def c10State : VMState := mkScriptState c10Chunk []

/-- c10State after the instruction fetch advanced ip. -/
def c10After : VMState := ⟨[], [⟨scriptClosureOf c10Chunk, 1, 0⟩], [], [], [], 0⟩

/-- The reserved slot-0 local installed by Compiler::new (empty lexeme,
depth 0). -/
def blankLocal : LocalV := ⟨"", some 0⟩

/-- The compiler state for the body of fun f() {} at the moment
end_compiler runs: fresh chunk, reserved local only, inside the function
scope. -/
def innerFunCompiler : CompilerSt :=
  ⟨ChunkV.new, List.replicate 256 blankLocal, 1, 1, false, false, [], 1⟩

/-- A fresh script compiler (Compiler::new for the enclosing script). -/
def scriptCompilerNew : CompilerSt :=
  ⟨ChunkV.new, List.replicate 256 blankLocal, 1, 0, false, false, [], 1⟩

/-- The Function value produced for fun f() {}. -/
def innerFunc : Func := Func.mk 0 (endCompiler innerFunCompiler).chunk (some "f") 0

/-- A compiler state inside scope depth 2 whose live locals are the
reserved slot and a local x initialised at the shallower scope depth 1;
declaring a new local x here is legal shadowing. -/
def c5State : CompilerSt :=
  ⟨ChunkV.new, (List.replicate 256 blankLocal).set 1 ⟨"x", some 1⟩, 2, 2,
    false, false, [], 1⟩

/-- A compiler state whose u8 local_count has reached 255 (the 256th
add_local call). -/
def c7State : CompilerSt :=
  ⟨ChunkV.new, List.replicate 256 blankLocal, 255, 1, false, false, [], 1⟩

/-! ## Theorems -/

theorem applyChunkOp_parallel (c : ChunkV) (op : ChunkOp)
    (h : c.code.length = c.lines.length) :
    (applyChunkOp c op).code.length = (applyChunkOp c op).lines.length := by
  cases c with
  | mk code lines consts =>
    simp only [ChunkV.code, ChunkV.lines] at h
    cases op <;>
      simp [applyChunkOp, writeCode, writeNumber, writeString, writeFunction,
        writeClass, patchJump, ChunkV.code, ChunkV.lines, h]

theorem applyChunkOps_parallel (ops : List ChunkOp) (c : ChunkV)
    (h : c.code.length = c.lines.length) :
    (applyChunkOps c ops).code.length = (applyChunkOps c ops).lines.length := by
  induction ops generalizing c with
  | nil => exact h
  | cons op rest ih => exact ih _ (applyChunkOp_parallel c op h)

/-- Claim C9: for every chunk produced from Chunk::new by any sequence of
write_code, write_number, write_string, write_function, write_class and
in-place jump patching, len(code) = len(lines); hence every compiled
function's chunk keeps its code and line tables parallel. -/
theorem c9_chunk_code_lines_parallel (ops : List ChunkOp) :
    (applyChunkOps ChunkV.new ops).code.length
      = (applyChunkOps ChunkV.new ops).lines.length :=
  applyChunkOps_parallel ops ChunkV.new rfl

/-- Claim C2 (code bug): end_compiler appends a single RETURN byte, never
the claimed implicit NIL before it, and the parent compiler of fun f() {}
receives CONSTANT followed by the function constant index with zero
(is_local, index) operand pairs, not a CLOSURE instruction. -/
theorem c2_function_compilation_divergence :
    (∀ st : CompilerSt,
        (endCompiler st).chunk.code = st.chunk.code ++ [OpCode.ret.toU8])
    ∧ (endCompiler innerFunCompiler).chunk.code = [0]
    ∧ ([0] : List Nat) ≠ [OpCode.nilOp.toU8, OpCode.ret.toU8]
    ∧ (functionEmitTail scriptCompilerNew innerFunc).chunk.code
        = [OpCode.constant.toU8, 0]
    ∧ (functionEmitTail scriptCompilerNew innerFunc).chunk.constants
        = [Value.function innerFunc]
    ∧ OpCode.constant.toU8 ≠ OpCode.closureOp.toU8 := by
  refine ⟨fun st => ?_, rfl, by decide, rfl, rfl, by decide⟩
  simp [endCompiler, emitReturn, emitByte, writeCode, ChunkV.code, OpCode.toU8]

/-- Claim C5 (code bug): declare_variable's scan never stops at an
enclosing-scope local (its continue-guard is unsatisfiable without
panicking), so a local x declared at scope depth 2 that merely shadows an
initialised local x of the shallower depth 1 is reported as "Already a
variable with this name in this scope.". -/
theorem c5_shadowing_rejected :
    c5State.scopeDepth = 2
    ∧ c5State.locals.get? 1 = some ⟨"x", some 1⟩
    ∧ (declareVariable c5State "x").map CompilerSt.hadError = .ok true
    ∧ (declareVariable c5State "x").map CompilerSt.errors
        = .ok ["Already a variable with this name in this scope."] :=
  ⟨rfl, rfl, rfl, rfl⟩

/-- Claim C7 (code bug): add_local's guard compares the u8 local_count with
u8::MAX + 1 = 256 and can never fire, so the 256th addition (local_count
255) reports no "Too many local variables" error; the counter instead
wraps to 0 (a debug build panics at this same increment). -/
theorem c7_add_local_guard_unreachable :
    (∀ (st : CompilerSt) (name : String),
        (addLocal { st with localCount := st.localCount % 256 } name).errors = st.errors
        ∧ (addLocal { st with localCount := st.localCount % 256 } name).hadError
            = st.hadError)
    ∧ c7State.localCount = 255
    ∧ (addLocal c7State "y").errors = []
    ∧ (addLocal c7State "y").hadError = false
    ∧ (addLocal c7State "y").localCount = 0 := by
  refine ⟨fun st name => ?_, rfl, rfl, rfl, rfl⟩
  have h : st.localCount % 256 ≠ 256 := by omega
  simp [addLocal, h]

/-- Claim C1 (code bug): a GET_PROPERTY miss on an instance and a
SET_PROPERTY on a non-instance both report their runtime error and then
fall through without returning, so the next opcode (here RETURN) still
executes and interpretation finishes with Ok rather than RuntimeError. -/
theorem c1_property_errors_not_fatal :
    (runStep c1GetPropState).isNext = true
    ∧ (runLoop 2 c1GetPropState).isFinished = true
    ∧ (runLoop 2 c1GetPropState).isRuntimeErrorHalt = false
    ∧ (runLoop 2 c1GetPropState).errorsOf = ["Undefined property 'q'."]
    ∧ (runStep c1SetPropState).isNext = true
    ∧ (runLoop 2 c1SetPropState).isFinished = true
    ∧ (runLoop 2 c1SetPropState).isRuntimeErrorHalt = false
    ∧ (runLoop 2 c1SetPropState).errorsOf
        = ["Value Number(1.0) is not an instance."] :=
  ⟨rfl, rfl, rfl, rfl, rfl, rfl, rfl, rfl⟩

/-- Claim C10: the CLOSE_UPVALUE handler is an unimplemented todo!, so
dispatching any instruction that decodes to CLOSE_UPVALUE panics and never
produces a continuing state, Ok, or RuntimeError. -/
theorem c10_close_upvalue_panics
    (st st1 : VMState) (b : Nat)
    (h1 : readByte st = some (b, st1))
    (h2 : OpCode.fromU8 b = some OpCode.closeUpvalue) :
    runStep st = .panicked "not yet implemented: what do i do here"
    ∧ ∀ st2 : VMState,
        runStep st ≠ .next st2
        ∧ runStep st ≠ .finished st2
        ∧ runStep st ≠ .runtimeErrorHalt st2 := by
  have hrun : runStep st = .panicked "not yet implemented: what do i do here" := by
    unfold runStep
    rw [h1]
    dsimp only
    rw [h2]
    rfl
  refine ⟨hrun, fun st2 => ⟨?_, ?_, ?_⟩⟩ <;> rw [hrun] <;> intro hcontra <;>
    exact StepOutcome.noConfusion hcontra

/-- Witness for c10_close_upvalue_panics at a one-byte chunk holding the
CLOSE_UPVALUE opcode. -/
theorem c10_close_upvalue_panics_witness :
    runStep c10State = .panicked "not yet implemented: what do i do here" :=
  (c10_close_upvalue_panics c10State c10After 28 rfl rfl).1

theorem stackPeek0_append (stack : List Value) (v : Value) (fs : List Frame)
    (gl : List (String × Value)) (pr er : List String) (ck : Int) :
    stackPeek ⟨stack ++ [v], fs, gl, pr, er, ck⟩ 0 = some v := by
  simp [stackPeek, stackSize, List.get?_concat_length]

/-- Claim C4 counterexample: two identical Class values are the same
variant with equal payload, yet EQUAL computes false for them (the
catch-all arm), refuting the claimed equivalence at this input. -/
theorem c4_equal_counterexample :
    ¬ (eqValues (some (Value.classVal (ClassV.mk "A")))
          (some (Value.classVal (ClassV.mk "A"))) = some true
        ↔ Value.classVal (ClassV.mk "A") = Value.classVal (ClassV.mk "A")) := by
  intro h
  have hfalse := h.mpr rfl
  simp [eqValues] at hfalse

theorem eqValues_some_eq (a b : Value) :
    eqValues (some b) (some a) = some (valuesEqual a b) := by
  cases b <;> cases a <;> rfl

/-- Claim C4 amended: EQUAL pops b then a and pushes a boolean; the result
is true exactly when the operands are equal values of a primitive variant
(number, boolean, nil, or string, with strings compared by value);
mismatched variants are false, and any comparison involving a function,
native function, closure, upvalue, class, or instance operand is false
even when the two values are identical. -/
theorem c4_equal_amended :
    (∀ (stack : List Value) (a b : Value) (fs : List Frame)
        (gl : List (String × Value)) (pr er : List String) (ck : Int),
        equalExec ⟨stack ++ [a, b], fs, gl, pr, er, ck⟩
          = .next ⟨stack ++ [Value.boolean (valuesEqual a b)], fs, gl, pr, er, ck⟩)
    ∧ (∀ a b : Value, valuesEqual a b = true ↔ (a = b ∧ isPrimValue a = true)) := by
  constructor
  · intro stack a b fs gl pr er ck
    have h2 : stack ++ [a, b] = (stack ++ [a]) ++ [b] := by simp
    simp only [equalExec, stackPop, h2, List.getLast?_concat, List.dropLast_concat,
      eqValues_some_eq]
    rfl
  · intro a b
    cases a <;> cases b <;> simp [valuesEqual, isPrimValue]

/-- Claim C6 counterexample: with a frame based at slot 256, GET_LOCAL 0
pushes the value at absolute index 0 (the u8 sum wraps), not the value at
the exact index frame.slot + slot = 256. -/
theorem c6_local_index_counterexample :
    c6Frame.slot = 256
    ∧ c6Stack.get? (256 + 0) = some (Value.number 2)
    ∧ (runStep c6State).stackOf = c6Stack ++ [Value.number 1]
    ∧ (runStep c6State).stackOf ≠ c6Stack ++ [Value.number 2] := by
  refine ⟨rfl, rfl, rfl, ?_⟩
  have h3 : (runStep c6State).stackOf = c6Stack ++ [Value.number 1] := rfl
  intro h
  rw [h3] at h
  have h4 := List.append_cancel_left h
  injection h4 with h5 h6
  injection h5 with h7
  exact absurd h7 (by decide)

/-- Claim C6 amended: GET_LOCAL pushes, and SET_LOCAL writes peek(0)
without popping at, value_stack[(slot + frame.slot mod 256) mod 256] — the
operand byte plus the frame base truncated to u8, with a wrapping u8 sum —
panicking when that wrapped index is outside the stack; the wrapped index
agrees with the exact index frame.slot + slot whenever that exact sum is
at most 255. -/
theorem c6_locals_amended :
    (∀ (stack : List Value) (fs : List Frame) (f : Frame)
        (gl : List (String × Value)) (pr er : List String) (ck : Int) (b : Nat),
        getLocalExec ⟨stack, fs ++ [f], gl, pr, er, ck⟩ b
          = match stack.get? (localIndex b f.slot) with
            | none => .panicked "index out of bounds"
            | some v => .next ⟨stack ++ [v], fs ++ [f], gl, pr, er, ck⟩)
    ∧ (∀ (stack : List Value) (top : Value) (fs : List Frame) (f : Frame)
        (gl : List (String × Value)) (pr er : List String) (ck : Int) (b : Nat),
        setLocalExec ⟨stack ++ [top], fs ++ [f], gl, pr, er, ck⟩ b
          = if localIndex b f.slot < (stack ++ [top]).length then
              .next ⟨(stack ++ [top]).set (localIndex b f.slot) top,
                fs ++ [f], gl, pr, er, ck⟩
            else .panicked "index out of bounds")
    ∧ (∀ (stack : List Value) (top v : Value) (i : Nat),
        ((stack ++ [top]).set i v).length = (stack ++ [top]).length)
    ∧ (∀ b s : Nat, b < 256 → b + s ≤ 255 → localIndex b s = s + b) := by
  refine ⟨fun stack fs f gl pr er ck b => ?_,
    fun stack top fs f gl pr er ck b => ?_,
    fun stack top v i => by simp,
    fun b s h1 h2 => ?_⟩
  · simp only [getLocalExec, currentFrame, List.getLast?_concat, getValueAtIdx]
    cases stack.get? (localIndex b f.slot) <;> rfl
  · simp only [setLocalExec, currentFrame, List.getLast?_concat, stackPeek0_append,
      setValueAtIdx]
    by_cases h : localIndex b f.slot < stack.length + 1 <;> simp [h]
  · simp only [localIndex]
    omega

/-- Witness for c6_locals_amended: at operand byte 3 and frame slot 10 the
wrapped index agrees with the exact sum. -/
theorem c6_locals_amended_witness : localIndex 3 10 = 10 + 3 :=
  c6_locals_amended.2.2.2 3 10 (by decide) (by decide)
